import Mathlib

/-
Verification of `src/src/model.rs` from the Rspark repository: a generic
document-entity mapping layer over a MongoDB-style document store.

Embedding conventions
- Wire documents (`mongodb::bson::Document`) are ordered association lists
  of field name and BSON value; the code inspects only the field "_id" and
  otherwise forwards documents opaquely, so a small closed `Bson` type
  suffices.
- The MongoDB driver is an external collaborator.  Its responses
  (update/insert/delete results, found documents, index listings) are inputs
  ("oracles"), and the calls the code issues are recorded in an event trace,
  so theorems can speak both about what the code sends and what it does with
  each possible response.
- The model type `M` is abstract; its serde serialization and its
  `ModelTimestamps` capability (`updated_at`, `created_at`) are fields of a
  `ModelOps` record.  `Observer` hooks are abstracted to their outcome; the
  trace records each dispatch.
- Rust panics (`unwrap` on `None` / `Err`) are modelled by the `PanicOr`
  codomain.
-/

namespace Rspark

/-- BSON values, closed to the shapes the claims exercise.  The code under
verification never inspects a value beyond comparing field names. -/
inductive Bson where
  | objectId : Nat → Bson
  | str : String → Bson
  | int : Int → Bson
  | boolean : Bool → Bson
  deriving DecidableEq, Repr

/-- `mongodb::bson::Document`: an ordered association list of fields. -/
abbrev Document := List (String × Bson)

/-- `type Id = mongodb::bson::Bson` (model.rs line 27). -/
abbrev Id := Bson

/-- `mongodb::error::Error`, opaque. -/
abbrev Err := String

/-- `Document::get`: first value stored under key `k`. -/
def docGet (d : Document) (k : String) : Option Bson :=
  (d.find? (fun p => p.1 == k)).map (fun p => p.2)

/-- `Document::remove`: drop the field named `k`. -/
def docRemove (d : Document) (k : String) : Document :=
  d.filter (fun p => p.1 != k)

/-- Opaque caller-supplied options bag for `insert_one`. -/
structure InsertOneOptions where
  payload : Nat
  deriving DecidableEq, Repr

/-- Opaque options bag for `update_one`. -/
structure UpdateOptions where
  payload : Nat
  deriving DecidableEq, Repr

/-- Opaque options bag for `delete_one`. -/
structure DeleteOptions where
  payload : Nat
  deriving DecidableEq, Repr

/-- Opaque options bag for `find_one`. -/
structure FindOneOptions where
  payload : Nat
  deriving DecidableEq, Repr

/-- `mongodb::results::UpdateResult`, restricted to the fields the driver
documents for `update_one`: how many documents the filter matched and how
many were actually modified (`modified_count <= matched_count`). -/
structure UpdateResult where
  matched_count : Nat
  modified_count : Nat
  deriving DecidableEq, Repr

/-- One `update_one` call as issued by the code.  The modifier document built
at model.rs line 157 always has the single key "$set"; `modifierSet` is the
document stored under that key. -/
structure UpdateOneCall where
  filter : Document
  modifierSet : Document
  options : Option UpdateOptions
  deriving DecidableEq, Repr

/-- Driver calls and hook dispatches performed by an entity operation, in
order.  `insertOne` carries the model value handed to the driver (the driver
serializes it with the same serde implementation as `to_document`). -/
inductive Event (M : Type) where
  | updateOne : UpdateOneCall → Event M
  | insertOne : M → Option InsertOneOptions → Event M
  | deleteOne : Document → Option DeleteOptions → Event M
  | findOne : Document → Option FindOneOptions → Event M
  | hookUpdated : Event M
  | hookCreated : Event M
  | hookDeleted : Event M
  deriving DecidableEq, Repr

/-- Capabilities of the model type `M`: serde serialization
(`to_document`) and the `ModelTimestamps` mutators. -/
structure ModelOps (M : Type) where
  toDoc : M → Except Err Document
  updated_at : M → M
  created_at : M → M

/-- Driver and observer responses consumed by one `save` call: `save` issues
at most one `update_one`, at most one `insert_one`, and dispatches at most
one of the two hooks on each path. -/
structure SaveOracle where
  updateResult : Except Err UpdateResult
  insertResult : Except Err Id
  hookUpdated : Except Err Unit
  hookCreated : Except Err Unit

/-- Result of a `save` run: the returned value, the held value afterwards,
and the trace of calls issued. -/
structure SaveOutcome (M : Type) where
  result : Except Err Id
  inner : M
  trace : List (Event M)

/-- Insert path of `Model::save` (model.rs lines 169-178): the id field is
removed from the local `converted` document by the caller, the
create-timestamp is set on the held value, and `insert_one(&*self.inner,
options)` hands the held value itself to the driver; on success the created
hook is dispatched and `inserted_id` is returned. -/
def saveInsertPath {M : Type} (ops : ModelOps M) (oracle : SaveOracle)
    (options : Option InsertOneOptions) (inner : M) (prior : List (Event M)) :
    SaveOutcome M :=
  let inner2 := ops.created_at inner
  match oracle.insertResult with
  | Except.error e =>
      { result := Except.error e, inner := inner2,
        trace := prior ++ [Event.insertOne inner2 options] }
  | Except.ok newId =>
      match oracle.hookCreated with
      | Except.error e =>
          { result := Except.error e, inner := inner2,
            trace := prior ++ [Event.insertOne inner2 options, Event.hookCreated] }
      | Except.ok _ =>
          { result := Except.ok newId, inner := inner2,
            trace := prior ++ [Event.insertOne inner2 options, Event.hookCreated] }

/-- `Model::save` (model.rs lines 143-179).  Sets the update-timestamp,
serializes the held value, and if the serialized document carries "_id"
issues `update_one` with filter on that id and a full-document "$set"
modifier and no options; a modified count of at least 1 completes the update
path (updated hook, same id returned); otherwise control falls to the insert
path.  The local `converted.remove("_id")` at line 169 is reproduced even
though its result is never read again. -/
def save {M : Type} (ops : ModelOps M) (oracle : SaveOracle)
    (options : Option InsertOneOptions) (inner0 : M) : SaveOutcome M :=
  let inner := ops.updated_at inner0
  match ops.toDoc inner with
  | Except.error e => { result := Except.error e, inner := inner, trace := [] }
  | Except.ok converted =>
      match docGet converted "_id" with
      | some id =>
          let call : UpdateOneCall :=
            { filter := [("_id", id)], modifierSet := converted, options := none }
          match oracle.updateResult with
          | Except.error e =>
              { result := Except.error e, inner := inner,
                trace := [Event.updateOne call] }
          | Except.ok upsert =>
              if 1 ≤ upsert.modified_count then
                match oracle.hookUpdated with
                | Except.error e =>
                    { result := Except.error e, inner := inner,
                      trace := [Event.updateOne call, Event.hookUpdated] }
                | Except.ok _ =>
                    { result := Except.ok id, inner := inner,
                      trace := [Event.updateOne call, Event.hookUpdated] }
              else
                let _dead := docRemove converted "_id"
                saveInsertPath ops oracle options inner [Event.updateOne call]
      | none =>
          let _dead := docRemove converted "_id"
          saveInsertPath ops oracle options inner []

/-- True when the trace contains an `insert_one` call: control reached the
insert path of `save`. -/
def hasInsert {M : Type} (tr : List (Event M)) : Bool :=
  tr.any (fun ev =>
    match ev with
    | Event.insertOne _ _ => true
    | _ => false)

/-- The `update_one` calls recorded in a trace, in order. -/
def updateCallsOf {M : Type} (tr : List (Event M)) : List UpdateOneCall :=
  tr.filterMap (fun ev =>
    match ev with
    | Event.updateOne c => some c
    | _ => none)

/-- The options argument of each `insert_one` call recorded in a trace. -/
def insertOptionsOf {M : Type} (tr : List (Event M)) : List (Option InsertOneOptions) :=
  tr.filterMap (fun ev =>
    match ev with
    | Event.insertOne _ o => some o
    | _ => none)

/-- True for the hook-dispatch events. -/
def isHookEvent {M : Type} (ev : Event M) : Bool :=
  match ev with
  | Event.hookUpdated => true
  | Event.hookCreated => true
  | Event.hookDeleted => true
  | _ => false

/-- `Model::fill` (model.rs lines 371-373): replace the held value wholesale
through the mutable dereference; no driver call, no hook. -/
def fill {M : Type} (_inner : M) (value : M) : M :=
  value

/-- Result of a `find_one` run.  The Rust method returns
`Option<&mut Self>`; the borrow of `self` is modelled as `Unit`, with the
held value reported alongside. -/
structure FindOneOutcome (M : Type) where
  result : Except Err (Option Unit)
  inner : M
  trace : List (Event M)

/-- `Model::find_one` (model.rs lines 180-193): one driver lookup; on a hit
the held value is overwritten through `fill` and `Ok(Some(self))` is
returned, on a miss `Ok(None)`; no hook is dispatched on any path. -/
def find_one {M : Type} (oracle : Except Err (Option M)) (filter : Document)
    (options : Option FindOneOptions) (inner : M) : FindOneOutcome M :=
  match oracle with
  | Except.error e =>
      { result := Except.error e, inner := inner,
        trace := [Event.findOne filter options] }
  | Except.ok (some found) =>
      { result := Except.ok (some ()), inner := fill inner found,
        trace := [Event.findOne filter options] }
  | Except.ok none =>
      { result := Except.ok none, inner := inner,
        trace := [Event.findOne filter options] }

/-- Driver and observer responses consumed by one `delete` call. -/
structure DeleteOracle where
  deleteResult : Except Err Nat
  hookDeleted : Except Err Unit

/-- Result of a `delete` run. -/
structure DeleteOutcome (M : Type) where
  result : Except Err Nat
  trace : List (Event M)

/-- `Model::delete` (model.rs lines 357-369): one `delete_one` call; its
`deleted_count` is remembered, the deleted hook is dispatched, and the count
is returned.  The hook dispatch does not look at the count. -/
def delete (M : Type) (oracle : DeleteOracle) (query : Document)
    (options : Option DeleteOptions) : DeleteOutcome M :=
  match oracle.deleteResult with
  | Except.error e =>
      { result := Except.error e, trace := [Event.deleteOne query options] }
  | Except.ok re =>
      match oracle.hookDeleted with
      | Except.error e =>
          { result := Except.error e,
            trace := [Event.deleteOne query options, Event.hookDeleted] }
      | Except.ok _ =>
          { result := Except.ok re,
            trace := [Event.deleteOne query options, Event.hookDeleted] }

/-- Outcome of code that can hit an unguarded `unwrap`. -/
inductive PanicOr (α : Type) where
  | panicked : PanicOr α
  | ok : α → PanicOr α
  deriving DecidableEq, Repr

/-- `mongodb::options::IndexOptions`, restricted to the declared name. -/
structure IndexOptions where
  name : Option String
  deriving DecidableEq, Repr

/-- `mongodb::IndexModel`: the keys document (field name with sort order)
and the optional options block. -/
structure IndexModel where
  keys : List (String × Int)
  options : Option IndexOptions
  deriving DecidableEq, Repr

/-- One key of one listed index, as processed by the diff step of
`Model::register_attributes` (model.rs lines 297-307).  State is the pair of
the remaining declared attributes and the accumulated names to remove. -/
def diffOneKey (st : List String × List (Option String))
    (opts : Option IndexOptions) (key : String) :
    List String × List (Option String) :=
  if key == "_id" then st
  else
    match st.1.findIdx? (fun k => k == key) with
    | some pos => (st.1.eraseIdx pos, st.2)
    | none =>
        match opts with
        | some rw => (st.1, st.2 ++ [rw.name])
        | none => st

/-- One item of the `list_indexes` cursor (model.rs lines 294-314): a
decode failure is logged and skipped, a descriptor has each of its keys
diffed in order. -/
def diffOneItem (st : List String × List (Option String))
    (item : Except Err IndexModel) : List String × List (Option String) :=
  match item with
  | Except.error _ => st
  | Except.ok im => im.keys.foldl (fun s kv => diffOneKey s im.options kv.1) st

/-- The whole diff step over the listed indexes. -/
def diffStep (items : List (Except Err IndexModel)) (attrs : List String) :
    List String × List (Option String) :=
  items.foldl diffOneItem (attrs, [])

/-- The single-field ascending index built for a still-missing attribute
(model.rs lines 317-327). -/
def mkAscIndex (attr : String) : IndexModel :=
  { keys := [(attr, 1)], options := none }

/-- The drop loop of `register_attributes` (model.rs lines 329-337):
`name.as_ref().unwrap()` panics at the first stored `None`; otherwise every
name is dropped in order. -/
def unwrapAll : List (Option String) → PanicOr (List String)
  | [] => PanicOr.ok []
  | none :: _ => PanicOr.panicked
  | some k :: rest =>
      match unwrapAll rest with
      | PanicOr.panicked => PanicOr.panicked
      | PanicOr.ok l => PanicOr.ok (k :: l)

/-- What one reconciliation pass asks the driver to do: the `drop_index`
calls issued in order (each with a 5-second `max_time`), and the argument of
the single `create_indexes` call (no call is issued when empty). -/
structure ReconcilePlan where
  drops : List String
  creates : List IndexModel
  deriving DecidableEq, Repr

/-- One pass of the background routine spawned by
`Model::register_attributes` (model.rs lines 283-344), given the response to
`list_indexes` and the declared attribute list.  A listing failure skips the
diff step; a create failure is logged, a drop failure ignored, so the pass
itself only distinguishes completion from a panic in the drop loop. -/
def reconcile (listResult : Except Err (List (Except Err IndexModel)))
    (attributes0 : List String) : PanicOr ReconcilePlan :=
  let st :=
    match listResult with
    | Except.ok items => diffStep items attributes0
    | Except.error _ => (attributes0, [])
  let toCreate := st.1.map mkAscIndex
  match unwrapAll st.2 with
  | PanicOr.panicked => PanicOr.panicked
  | PanicOr.ok names => PanicOr.ok { drops := names, creates := toCreate }

/-- The declared name of a live index, when its descriptor carries one. -/
def indexName (im : IndexModel) : Option String :=
  match im.options with
  | some o => o.name
  | none => none

/-- Store semantics of `drop_index`: remove the index with that declared
name. -/
def dropIndexByName (indexes : List IndexModel) (name : String) :
    List IndexModel :=
  indexes.filter (fun im => indexName im != some name)

/-- Store semantics of executing a reconciliation plan against a collection
index set: each successful drop removes the named index, and a successful
`create_indexes` call appends the new descriptors. -/
def applyPlan (indexes : List IndexModel) (dropSucceeds : String → Bool)
    (createSucceeds : Bool) (plan : ReconcilePlan) : List IndexModel :=
  let afterDrops := plan.drops.foldl
    (fun st name => if dropSucceeds name then dropIndexByName st name else st)
    indexes
  if createSucceeds then afterDrops ++ plan.creates else afterDrops

/-- The non-identifier attribute names keyed by a collection index set. -/
def nonIdKeys (indexes : List IndexModel) : List String :=
  ((indexes.map (fun im => im.keys.map Prod.fst)).flatten).filter
    (fun k => k != "_id")

/-- The threshold constant `HEAP_THRESHOLD` (model.rs line 30). -/
def HEAP_THRESHOLD : Nat := 256

/-- The dual-representation container `Inner` (model.rs lines 32-36): the
value lives inline (`Stack`) or behind an owned heap allocation (`Heap`). -/
inductive Inner (M : Type) where
  | stack : M → Inner M
  | heap : M → Inner M
  deriving DecidableEq, Repr

/-- Which variant backs the container. -/
def Inner.isHeap {M : Type} : Inner M → Bool
  | Inner.stack _ => false
  | Inner.heap _ => true

/-- `Deref` for `Inner` (model.rs lines 49-57): the contained value,
whichever variant is active. -/
def Inner.get {M : Type} : Inner M → M
  | Inner.stack v => v
  | Inner.heap v => v

/-- Assignment through `DerefMut` (model.rs lines 59-66), as performed by
`fill` and `take_inner`: the contained value is replaced, the variant is
untouched. -/
def Inner.set {M : Type} : Inner M → M → Inner M
  | Inner.stack _, v => Inner.stack v
  | Inner.heap _, v => Inner.heap v

/-- The variant decision in `Model::new` (model.rs lines 114-118): heap
exactly when `std::mem::size_of::<M>() > 250`, the literal written in the
code. -/
def newInner {M : Type} (sizeOfM : Nat) (dflt : M) : Inner M :=
  if 250 < sizeOfM then Inner.heap dflt else Inner.stack dflt

/-- `Model::inner_to_doc` (model.rs lines 395-398): serialization failure is
returned to the caller. -/
def inner_to_doc {M : Type} (ops : ModelOps M) (inner : M) :
    Except Err Document :=
  match ops.toDoc inner with
  | Except.error e => Except.error e
  | Except.ok re => Except.ok re

/-- The three `From` conversions to `Document` (model.rs lines 403-428):
each calls `to_document(&value.inner).unwrap()`, so a serialization failure
panics.  All three impls (by value, by shared reference, by mutable
reference) evaluate the identical expression on the same held value. -/
def modelIntoDocument {M : Type} (ops : ModelOps M) (inner : M) :
    PanicOr Document :=
  match ops.toDoc inner with
  | Except.error _ => PanicOr.panicked
  | Except.ok d => PanicOr.ok d

/-! Concrete fixtures used by individual claims. -/

/-- Fixture for claim C2: a held value whose serialization always carries an
id field, with visible timestamp mutation (`created_at` adds 100). -/
def c2Ops : ModelOps Nat :=
  { toDoc := fun n => Except.ok [("_id", Bson.objectId 7), ("n", Bson.int n)],
    updated_at := fun n => n,
    created_at := fun n => n + 100 }

/-- Fixture for claim C2: the update matches nothing, the insert succeeds. -/
def c2Oracle : SaveOracle :=
  { updateResult := Except.ok { matched_count := 0, modified_count := 0 },
    insertResult := Except.ok (Bson.objectId 9),
    hookUpdated := Except.ok (),
    hookCreated := Except.ok () }

/-- Fixture for claim C3: the identifier index of the collection. -/
def c3IdIdx : IndexModel :=
  { keys := [("_id", 1)], options := some { name := some "_id_" } }

/-- Fixture for claim C3: a live index keyed on the declared attribute a. -/
def c3AIdx : IndexModel :=
  { keys := [("a", 1)], options := some { name := some "a_1" } }

/-- Fixture for claim C3: a live index keyed on c, absent from the declared
attribute list. -/
def c3CIdx : IndexModel :=
  { keys := [("c", 1)], options := some { name := some "c_1" } }

/-- Fixture for claim C9: serialization of the held value always fails. -/
def c9Ops : ModelOps Nat :=
  { toDoc := fun _ => Except.error "ser",
    updated_at := fun n => n,
    created_at := fun n => n }

/-- Fixture for claim C1: a held value whose serialization carries an id. -/
def c1Ops : ModelOps Nat :=
  { toDoc := fun _ => Except.ok [("_id", Bson.objectId 5)],
    updated_at := fun n => n,
    created_at := fun n => n }

/-- Fixture for claim C1: the update matches one document but modifies none
of them (the stored document already equals the written one). -/
def c1StaleOracle : SaveOracle :=
  { updateResult := Except.ok { matched_count := 1, modified_count := 0 },
    insertResult := Except.ok (Bson.objectId 6),
    hookUpdated := Except.ok (),
    hookCreated := Except.ok () }

/-- Fixture for claim C1: the update matches and modifies one document. -/
def c1GoodOracle : SaveOracle :=
  { updateResult := Except.ok { matched_count := 1, modified_count := 1 },
    insertResult := Except.ok (Bson.objectId 6),
    hookUpdated := Except.ok (),
    hookCreated := Except.ok () }

/-- Fixture for claim C10: serialization with an id field, so that the run
issues both the update and, on fall-through, the insert. -/
def c10Ops : ModelOps Nat :=
  { toDoc := fun n => Except.ok [("_id", Bson.objectId 7), ("n", Bson.int n)],
    updated_at := fun n => n,
    created_at := fun n => n + 100 }

/-- Fixture for claim C10: update matches nothing, insert succeeds. -/
def c10Oracle : SaveOracle :=
  { updateResult := Except.ok { matched_count := 0, modified_count := 0 },
    insertResult := Except.ok (Bson.objectId 9),
    hookUpdated := Except.ok (),
    hookCreated := Except.ok () }

section Claims

/-- Claim C5.  The spec says the held value goes to the heap exactly when
`sizeof(M)` exceeds the 256-byte constant threshold, and `HEAP_THRESHOLD`
(model.rs line 30) is indeed 256; but `Model::new` compares against the
hardcoded literal 250 instead of the constant, so a model of size 256 (and
251 through 255) is heap-allocated even though its size does not exceed the
threshold.  The variant is indeed fixed for life: every mutation goes
through the dereference, which preserves the variant. -/
theorem C5_heap_threshold_off_by_literal :
    (newInner 256 (0 : Nat)).isHeap = true ∧
    HEAP_THRESHOLD = 256 ∧
    ¬ 256 > HEAP_THRESHOLD ∧
    (∀ (i : Inner Nat) (v : Nat), (Inner.set i v).isHeap = i.isHeap) := by
  refine ⟨rfl, rfl, by decide, ?_⟩
  intro i v
  cases i <;> rfl

/-- Claim C7.  When `list_indexes` fails, the diff step is skipped and the
pass degrades to creating one single-field ascending index per declared
attribute: the plan drops nothing and creates exactly the declared list, and
the pass completes without surfacing anything (the codomain has no error
case besides the drop-loop panic, which an empty drop list cannot reach). -/
theorem C7_list_failure_degrades_to_create_all (e : Err) (attrs : List String) :
    reconcile (Except.error e) attrs =
      PanicOr.ok { drops := [], creates := attrs.map mkAscIndex } := by
  rfl

/-- Claim C3.  Against live indexes keyed on the identifier, a and c, with
declared attributes a and b, the pass plans to drop exactly the index named
c_1 and create exactly a single-field ascending index on b; executing that
plan (drops and create succeeding) leaves the identifier index and the
untouched original index on a, plus the new index on b, so the
non-identifier keys are exactly a and b. -/
theorem C3_reconciliation_converges :
    reconcile (Except.ok [Except.ok c3IdIdx, Except.ok c3AIdx, Except.ok c3CIdx])
        ["a", "b"] =
      PanicOr.ok { drops := ["c_1"], creates := [mkAscIndex "b"] } ∧
    applyPlan [c3IdIdx, c3AIdx, c3CIdx] (fun _ => true) true
        { drops := ["c_1"], creates := [mkAscIndex "b"] } =
      [c3IdIdx, c3AIdx, mkAscIndex "b"] ∧
    nonIdKeys [c3IdIdx, c3AIdx, mkAscIndex "b"] = ["a", "b"] := by
  refine ⟨rfl, rfl, rfl⟩

/-- Claim C2.  Insert path of `save` on a fall-through (stale id, update
matched nothing): the create-timestamp is set on the held value (100 is the
value after `created_at`), the created hook is dispatched, and the driver's
`inserted_id` is returned — but the value handed to `insert_one` is the held
value itself, whose re-serialization still carries the "_id" field: the
`converted.remove` call only edits a local document that is then discarded,
so the outgoing document is not id-free as claimed. -/
theorem C2_insert_path_keeps_id_field :
    (save c2Ops c2Oracle (some { payload := 3 }) 0).trace =
      [Event.updateOne
         { filter := [("_id", Bson.objectId 7)],
           modifierSet := [("_id", Bson.objectId 7), ("n", Bson.int 0)],
           options := none },
       Event.insertOne 100 (some { payload := 3 }),
       Event.hookCreated] ∧
    c2Ops.created_at (c2Ops.updated_at 0) = 100 ∧
    c2Ops.toDoc 100 = Except.ok [("_id", Bson.objectId 7), ("n", Bson.int 100)] ∧
    docGet [("_id", Bson.objectId 7), ("n", Bson.int 100)] "_id" =
      some (Bson.objectId 7) ∧
    (save c2Ops c2Oracle (some { payload := 3 }) 0).result =
      Except.ok (Bson.objectId 9) := by
  refine ⟨rfl, rfl, rfl, rfl, rfl⟩

/-- Claim C9.  The `From` conversions to `Document` unwrap the serialization
result and hence panic on failure, while `inner_to_doc` returns the same
failure to the caller; on success both produce the same document. -/
theorem C9_from_panics_inner_to_doc_returns {M : Type} (ops : ModelOps M) (m : M) :
    (∀ e : Err, ops.toDoc m = Except.error e →
      modelIntoDocument ops m = PanicOr.panicked ∧
      inner_to_doc ops m = Except.error e) ∧
    (∀ d : Document, ops.toDoc m = Except.ok d →
      modelIntoDocument ops m = PanicOr.ok d ∧
      inner_to_doc ops m = Except.ok d) := by
  constructor
  · intro e he
    simp [modelIntoDocument, inner_to_doc, he]
  · intro d hd
    simp [modelIntoDocument, inner_to_doc, hd]

/-- Witness for claim C9: a serialization that fails with "ser" makes the
conversion panic and `inner_to_doc` return that error. -/
theorem C9_witness :
    modelIntoDocument c9Ops 0 = PanicOr.panicked ∧
    inner_to_doc c9Ops 0 = Except.error "ser" :=
  (C9_from_panics_inner_to_doc_returns c9Ops 0).1 "ser" rfl

/-- Claim C4.  Given the driver's guarantee that `delete_one` removes at
most one document, `delete` issues exactly one single-document delete call,
dispatches the deleted hook exactly once directly after it — regardless of
the count, including a count of zero — and, when the hook succeeds, returns
exactly the count the driver removed. -/
theorem C4_delete_always_dispatches_hook (M : Type) (oracle : DeleteOracle)
    (query : Document) (options : Option DeleteOptions) (n : Nat)
    (hres : oracle.deleteResult = Except.ok n) (hn : n ≤ 1) :
    (delete M oracle query options).trace =
      [Event.deleteOne query options, Event.hookDeleted] ∧
    (oracle.hookDeleted = Except.ok () →
      (delete M oracle query options).result = Except.ok n ∧ n ≤ 1) := by
  cases hh : oracle.hookDeleted with
  | error e => simp [delete, hres, hh]
  | ok u => cases u; simp [delete, hres, hh, hn]

/-- Witness for claim C4: a filter matching zero documents still produces
exactly one deleted-hook dispatch, and the returned count is 0. -/
theorem C4_witness :
    (delete Nat
        { deleteResult := Except.ok 0, hookDeleted := Except.ok () }
        [("name", Bson.str "x")] none).trace =
      [Event.deleteOne [("name", Bson.str "x")] none, Event.hookDeleted] ∧
    (({ deleteResult := Except.ok 0, hookDeleted := Except.ok () } :
        DeleteOracle).hookDeleted = Except.ok () →
      (delete Nat
          { deleteResult := Except.ok 0, hookDeleted := Except.ok () }
          [("name", Bson.str "x")] none).result = Except.ok 0 ∧ (0 : Nat) ≤ 1) :=
  C4_delete_always_dispatches_hook Nat
    { deleteResult := Except.ok 0, hookDeleted := Except.ok () }
    [("name", Bson.str "x")] none 0 rfl (by decide)

/-- Claim C6.  `find_one` issues exactly one lookup and dispatches no hook
on any path; on a hit the held value is overwritten through `fill` with the
found document and a handle to self is returned; on a miss the explicit
outcome `Ok(None)` is returned and the held value is untouched. -/
theorem C6_find_one_semantics (M : Type) (oracle : Except Err (Option M))
    (filter : Document) (options : Option FindOneOptions) (inner : M) :
    (find_one oracle filter options inner).trace = [Event.findOne filter options] ∧
    ((find_one oracle filter options inner).trace.filter
        (fun ev => isHookEvent ev)) = [] ∧
    (∀ v : M, oracle = Except.ok (some v) →
      (find_one oracle filter options inner).result = Except.ok (some ()) ∧
      (find_one oracle filter options inner).inner = fill inner v) ∧
    (oracle = Except.ok none →
      (find_one oracle filter options inner).result = Except.ok none ∧
      (find_one oracle filter options inner).inner = inner) := by
  cases oracle with
  | error e => simp [find_one, isHookEvent]
  | ok o => cases o <;> simp [find_one, isHookEvent, fill]

/-- Witness for claim C6: a hit on a concrete filter overwrites the held
value 0 with the found value 5 and returns a handle; the trace is the bare
lookup. -/
theorem C6_witness :
    (find_one (Except.ok (some 5)) [("x", Bson.int 1)] none (0 : Nat)).result =
      Except.ok (some ()) ∧
    (find_one (Except.ok (some 5)) [("x", Bson.int 1)] none (0 : Nat)).inner =
      fill 0 5 :=
  (C6_find_one_semantics Nat (Except.ok (some 5)) [("x", Bson.int 1)] none 0).2.2.1
    5 rfl

/-- Claim C8.  In the diff step, a live non-identifier index whose key is
absent from the declared list is marked for removal only when its descriptor
carries an options block (the name pushed is whatever that block holds,
possibly `None`); and because the drop loop unwraps each marked name, a
descriptor whose options carry no name makes the pass panic. -/
theorem C8_unnamed_stale_index_panics (k : String) (attrs0 : List String)
    (hk : k ≠ "_id") (hnm : k ∉ attrs0) :
    diffStep [Except.ok { keys := [(k, 1)], options := none }] attrs0 =
      (attrs0, []) ∧
    (∀ nm : Option String,
      diffStep [Except.ok { keys := [(k, 1)], options := some { name := nm } }]
          attrs0 =
        (attrs0, [nm])) ∧
    reconcile
        (Except.ok [Except.ok { keys := [(k, 1)], options := some { name := none } }])
        attrs0 =
      PanicOr.panicked := by
  have hbeq : (k == "_id") = false := beq_eq_false_iff_ne.mpr hk
  have hfind : attrs0.findIdx? (fun x => x == k) = none := by
    rw [List.findIdx?_eq_none_iff]
    intro x hx
    exact beq_eq_false_iff_ne.mpr (fun h => hnm (h ▸ hx))
  refine ⟨?_, ?_, ?_⟩
  · simp [diffStep, diffOneItem, diffOneKey, hbeq, hfind, hk]
  · intro nm
    simp [diffStep, diffOneItem, diffOneKey, hbeq, hfind, hk]
  · simp [reconcile, diffStep, diffOneItem, diffOneKey, hbeq, hfind, hk, unwrapAll]

/-- Witness for claim C8: a live index on c with an options block holding no
name, against the declared list a, makes the pass panic in the drop loop. -/
theorem C8_witness :
    diffStep [Except.ok { keys := [("c", 1)], options := none }] ["a"] =
      (["a"], []) ∧
    (∀ nm : Option String,
      diffStep [Except.ok { keys := [("c", 1)], options := some { name := nm } }]
          ["a"] =
        (["a"], [nm])) ∧
    reconcile
        (Except.ok
          [Except.ok { keys := [("c", 1)], options := some { name := none } }])
        ["a"] =
      PanicOr.panicked :=
  C8_unnamed_stale_index_panics "c" ["a"] (by decide) (by decide)

/-- Counterexample to claim C1 as stated.  The claim says `save` falls
through to the insert path exactly when the update matched nothing; here the
driver reports one matched document with zero modified (a matched but
unchanged document), and `save` still falls through to insert, because the
code tests `modified_count >= 1`, never `matched_count`. -/
theorem C1_fallthrough_despite_match :
    hasInsert (save c1Ops c1StaleOracle none 0).trace = true ∧
    c1StaleOracle.updateResult =
      Except.ok { matched_count := 1, modified_count := 0 } :=
  ⟨rfl, rfl⟩

/-- Claim C1, amended.  When the serialized document carries "_id", `save`
issues exactly one single-document update, with filter on that id and the
full document as the "$set" payload; when the update reports a modified
count of at least 1 it completes the update path (updated hook dispatched,
that same id returned); and it falls through to the insert path exactly when
the update succeeded with modified count 0 — not exactly when it matched
nothing, since a matched-but-unmodified update also falls through. -/
theorem C1_update_path_and_fallthrough {M : Type} (ops : ModelOps M)
    (oracle : SaveOracle) (options : Option InsertOneOptions) (m : M)
    (converted : Document) (id : Bson)
    (hser : ops.toDoc (ops.updated_at m) = Except.ok converted)
    (hid : docGet converted "_id" = some id) :
    updateCallsOf (save ops oracle options m).trace =
      [{ filter := [("_id", id)], modifierSet := converted, options := none }] ∧
    (∀ ur : UpdateResult, oracle.updateResult = Except.ok ur →
      1 ≤ ur.modified_count → oracle.hookUpdated = Except.ok () →
      (save ops oracle options m).result = Except.ok id ∧
      Event.hookUpdated ∈ (save ops oracle options m).trace) ∧
    (hasInsert (save ops oracle options m).trace = true ↔
      ∃ ur : UpdateResult, oracle.updateResult = Except.ok ur ∧
        ur.modified_count = 0) := by
  refine ⟨?_, ?_, ?_⟩
  · simp only [save, saveInsertPath, hser, hid]
    repeat' split
    all_goals simp_all [updateCallsOf]
  · intro ur hur hmc hh
    simp only [save, saveInsertPath, hser, hid, hur, hh]
    simp [hmc]
  · simp only [save, saveInsertPath, hser, hid]
    repeat' split
    all_goals simp_all [hasInsert]
    all_goals omega

/-- Witness for claim C1: a held value serializing with id 5, against a
driver that matches and modifies one document. -/
theorem C1_witness :
    updateCallsOf (save c1Ops c1GoodOracle none 0).trace =
      [{ filter := [("_id", Bson.objectId 5)],
         modifierSet := [("_id", Bson.objectId 5)], options := none }] ∧
    (∀ ur : UpdateResult, c1GoodOracle.updateResult = Except.ok ur →
      1 ≤ ur.modified_count → c1GoodOracle.hookUpdated = Except.ok () →
      (save c1Ops c1GoodOracle none 0).result = Except.ok (Bson.objectId 5) ∧
      Event.hookUpdated ∈ (save c1Ops c1GoodOracle none 0).trace) ∧
    (hasInsert (save c1Ops c1GoodOracle none 0).trace = true ↔
      ∃ ur : UpdateResult, c1GoodOracle.updateResult = Except.ok ur ∧
        ur.modified_count = 0) :=
  C1_update_path_and_fallthrough c1Ops c1GoodOracle none 0
    [("_id", Bson.objectId 5)] (Bson.objectId 5) rfl rfl

/-- Claim C10.  In `save`, for every model, oracle and options bag: every
`update_one` call issued carries no options, and every `insert_one` call
issued carries exactly the caller-supplied options bag. -/
theorem C10_save_options_only_to_insert {M : Type} (ops : ModelOps M)
    (oracle : SaveOracle) (options : Option InsertOneOptions) (m : M) :
    (∀ c : UpdateOneCall,
      Event.updateOne c ∈ (save ops oracle options m).trace →
        c.options = none) ∧
    (∀ (v : M) (o : Option InsertOneOptions),
      Event.insertOne v o ∈ (save ops oracle options m).trace →
        o = options) := by
  constructor
  · intro c hc
    simp only [save, saveInsertPath] at hc
    repeat' split at hc
    all_goals simp_all
  · intro v o hc
    simp only [save, saveInsertPath] at hc
    repeat' split at hc
    all_goals simp_all

/-- Witness for claim C10: a run that issues both an update (stale id) and
the fall-through insert; the update call in its trace carries no options and
the insert call carries the caller's bag. -/
theorem C10_witness :
    ({ filter := [("_id", Bson.objectId 7)],
       modifierSet := [("_id", Bson.objectId 7), ("n", Bson.int 0)],
       options := none } : UpdateOneCall).options = none ∧
    (some { payload := 3 } : Option InsertOneOptions) = some { payload := 3 } :=
  ⟨(C10_save_options_only_to_insert c10Ops c10Oracle (some { payload := 3 }) 0).1
      { filter := [("_id", Bson.objectId 7)],
        modifierSet := [("_id", Bson.objectId 7), ("n", Bson.int 0)],
        options := none }
      (by decide),
   (C10_save_options_only_to_insert c10Ops c10Oracle (some { payload := 3 }) 0).2
      100 (some { payload := 3 }) (by decide)⟩

end Claims

end Rspark
